import Mathlib

/-!
Verification of the courier pricing engine (Rule Catalog + Quote Resolver).

The definitions below are a shallow embedding of the Python source:
  - `src/orders/models.py` — `DeliveryType`, `PricingRule.matches`,
    `PricingRule.calculate_price`, `Order.calculate_auto_price`, and the
    legacy `PricingTier` / `PricingConfiguration` fallbacks;
  - `src/orders/views.py` — `calculate_quote_api`.

Numeric values (Python `Decimal` / `float`) are embedded as `ℚ`; nullable
fields as `Option`.  Python truthiness on an optional numeric field
(`if self.flat_total:` is false for both `None` and `0`) is embedded by
`truthy`.  CPython's `round(x, 2)` (round-half-even on the exact value) is
embedded by `pyRound2`; every concrete input used in the theorems below is
a dyadic or otherwise float-exact rational, where binary floating point
coincides with exact rational arithmetic.
-/

namespace Courier

/-- Python truthiness of an optional numeric field: `None` and `0` are falsy. -/
def truthy (o : Option ℚ) : Bool := decide (o.getD 0 ≠ 0)

/-- Round to the nearest integer, ties to the even integer, as CPython
`round` does on exact values. -/
def roundHalfEven (x : ℚ) : ℤ :=
  let f : ℤ := ⌊x⌋
  let frac : ℚ := x - (f : ℚ)
  if frac < 1/2 then f
  else if frac = 1/2 then (if f % 2 = 0 then f else f + 1)
  else f + 1

/-- Embedding of Python `round(x, 2)`: round-half-even at two decimals. -/
def pyRound2 (x : ℚ) : ℚ := ((roundHalfEven (100 * x) : ℤ) : ℚ) / 100

/-- Modelled after the spec words only (for comparison with the code):
"round-half-up semantics" at two decimals. -/
def roundHalfUp2Spec (x : ℚ) : ℚ := ((⌊100 * x + 1/2⌋ : ℤ) : ℚ) / 100

/-- Embedding of `DeliveryType` rows (src/orders/models.py): the fields read by the
pricing engine. -/
structure DeliveryType where
  code : String
  base_price : ℚ
  is_active : Bool
  requires_admin_approval : Bool
deriving DecidableEq

/-- The `calculation_type` choices of `PricingRule`. -/
inductive CalculationType
  | PER_KM
  | CAPPED
  | FLAT
deriving DecidableEq

/-- Embedding of `PricingRule` rows (src/orders/models.py), carrying their foreign-key
`delivery_type` object as the Django instance does. -/
structure PricingRule where
  delivery_type : DeliveryType
  name : String
  weight_min : ℚ
  weight_max : Option ℚ
  is_oversize_rule : Bool
  distance_threshold : Option ℚ
  is_short_trip : Option Bool
  calculation_type : CalculationType
  rate_per_km : Option ℚ
  max_price : Option ℚ
  flat_total : Option ℚ
  oversize_surcharge : ℚ
  is_active : Bool
  priority : Int
deriving DecidableEq

/-- Embedding of `PricingRule.matches(weight_kg, distance_km, is_oversize)`, transcribed
from src/orders/models.py.  Each early `return False` of the Python body is
one branch. -/
def PricingRule.matches (r : PricingRule) (weight_kg distance_km : ℚ)
    (is_oversize : Bool) : Bool :=
  if r.is_oversize_rule && !is_oversize then false
  else if !r.is_oversize_rule && is_oversize
      && decide (r.delivery_type.code ≠ "EXPRESS_2HR") then false
  else if weight_kg < r.weight_min then false
  else if truthy r.weight_max && decide (r.weight_max.getD 0 < weight_kg) then false
  else if r.is_short_trip.isSome && truthy r.distance_threshold then
    (let threshold := r.distance_threshold.getD 0
     if r.is_short_trip.getD false && decide (threshold < distance_km) then false
     else if !(r.is_short_trip.getD false) && decide (distance_km ≤ threshold) then false
     else true)
  else true

/-- Embedding of `PricingRule.calculate_price(distance_km, weight_kg, is_oversize)`,
transcribed from src/orders/models.py.  `weight_kg` is accepted and unused,
as in the source. -/
def PricingRule.calculate_price (r : PricingRule) (distance_km _weight_kg : ℚ)
    (is_oversize : Bool) : ℚ :=
  let base := r.delivery_type.base_price
  let total : ℚ :=
    match r.calculation_type with
    | CalculationType.FLAT =>
        if truthy r.flat_total then r.flat_total.getD 0 else base
    | CalculationType.CAPPED =>
        let rate := if truthy r.rate_per_km then r.rate_per_km.getD 0 else 0
        let calculated := base + rate * distance_km
        let max_cap := if truthy r.max_price then r.max_price.getD 0 else calculated
        min calculated max_cap
    | CalculationType.PER_KM =>
        let rate := if truthy r.rate_per_km then r.rate_per_km.getD 0 else 0
        base + rate * distance_km
  let total2 := if is_oversize && decide (r.oversize_surcharge ≠ 0)
    then total + r.oversize_surcharge else total
  pyRound2 total2

/-- The value `calculate_price` computes before the oversize surcharge is
added (the pre-surcharge price). -/
def PricingRule.pre_surcharge_total (r : PricingRule) (distance_km : ℚ) : ℚ :=
  let base := r.delivery_type.base_price
  match r.calculation_type with
  | CalculationType.FLAT =>
      if truthy r.flat_total then r.flat_total.getD 0 else base
  | CalculationType.CAPPED =>
      let rate := if truthy r.rate_per_km then r.rate_per_km.getD 0 else 0
      let calculated := base + rate * distance_km
      let max_cap := if truthy r.max_price then r.max_price.getD 0 else calculated
      min calculated max_cap
  | CalculationType.PER_KM =>
      let rate := if truthy r.rate_per_km then r.rate_per_km.getD 0 else 0
      base + rate * distance_km

/-- The value `calculate_price` rounds at its final step: pre-surcharge
total plus the (conditional) oversize surcharge, unrounded. -/
def PricingRule.raw_total (r : PricingRule) (distance_km : ℚ)
    (is_oversize : Bool) : ℚ :=
  r.pre_surcharge_total distance_km
    + (if is_oversize && decide (r.oversize_surcharge ≠ 0)
        then r.oversize_surcharge else 0)

lemma calculate_price_eq_round_raw (r : PricingRule) (d w : ℚ) (o : Bool) :
    r.calculate_price d w o = pyRound2 (r.raw_total d o) := by
  cases hct : r.calculation_type <;>
    simp only [PricingRule.calculate_price, PricingRule.raw_total,
      PricingRule.pre_surcharge_total, hct] <;>
    split <;> simp

/-- The weight gate of `matches` (the middle two Python conditions). -/
def weight_gate (r : PricingRule) (weight_kg : ℚ) : Bool :=
  decide (r.weight_min ≤ weight_kg)
    && !(truthy r.weight_max && decide (r.weight_max.getD 0 < weight_kg))

/-- The distance gate of `matches` (the final Python conditions). -/
def distance_gate (r : PricingRule) (distance_km : ℚ) : Bool :=
  if r.is_short_trip.isSome && truthy r.distance_threshold then
    (let threshold := r.distance_threshold.getD 0
     if r.is_short_trip.getD false then decide (distance_km ≤ threshold)
     else decide (threshold < distance_km))
  else true

lemma distance_tail_eq (r : PricingRule) (d : ℚ) :
    (if r.is_short_trip.isSome && truthy r.distance_threshold then
      (let threshold := r.distance_threshold.getD 0
       if r.is_short_trip.getD false && decide (threshold < d) then false
       else if !(r.is_short_trip.getD false) && decide (d ≤ threshold) then false
       else true)
     else true) = distance_gate r d := by
  simp only [distance_gate]
  by_cases hS : (r.is_short_trip.isSome && truthy r.distance_threshold) = true
  · by_cases hD : d ≤ r.distance_threshold.getD 0
    · by_cases hF : r.is_short_trip.getD false = true <;>
        simp [hS, hF, hD, not_lt.mpr hD]
    · have hD' : r.distance_threshold.getD 0 < d := not_le.mp hD
      by_cases hF : r.is_short_trip.getD false = true <;>
        simp [hS, hF, hD, hD']
  · simp [hS]

/-- Once the two oversize conditions of `matches` have fallen through, the
remaining body is exactly the weight gate and the distance gate. -/
lemma matches_eq_tail (r : PricingRule) (w d : ℚ) (o : Bool)
    (h1 : (r.is_oversize_rule && !o) = false)
    (h2 : (!r.is_oversize_rule && o
        && decide (r.delivery_type.code ≠ "EXPRESS_2HR")) = false) :
    r.matches w d o = (weight_gate r w && distance_gate r d) := by
  simp only [PricingRule.matches, h1, h2, Bool.false_eq_true, if_false]
  by_cases hW : w < r.weight_min
  · simp [hW, weight_gate, not_le.mpr hW]
  · have hW' : r.weight_min ≤ w := not_lt.mp hW
    by_cases hM : (truthy r.weight_max && decide (r.weight_max.getD 0 < w)) = true
    · simp [hW, hM, weight_gate]
    · rw [if_neg hW, if_neg (by simp [hM])]
      have hwg : weight_gate r w = true := by
        simp only [weight_gate, Bool.and_eq_true, Bool.not_eq_true']
        exact ⟨decide_eq_true hW', by simpa using hM⟩
      rw [hwg, Bool.true_and]
      exact distance_tail_eq r d

/-- Stable insertion of a rule into a list sorted by ascending `priority`. -/
def insertByPriority (r : PricingRule) : List PricingRule → List PricingRule
  | [] => [r]
  | x :: xs =>
    if r.priority ≤ x.priority then r :: x :: xs else x :: insertByPriority r xs

/-- The `.order_by('priority')` of both resolver call sites: a stable sort
by ascending `priority`.  Django's explicit `order_by` replaces the model
`Meta.ordering`, so equal priorities keep the underlying catalog (database)
order; no `weight_min` tie-break is applied. -/
def orderByPriority : List PricingRule → List PricingRule
  | [] => []
  | x :: xs => insertByPriority x (orderByPriority xs)

/-- Modelled after the spec words only (for comparison with the code):
insertion under the ordering "ascending `priority`, tie-broken by ascending
`weight_min`". -/
def insertBySpecOrder (r : PricingRule) : List PricingRule → List PricingRule
  | [] => [r]
  | x :: xs =>
    if r.priority < x.priority
        ∨ (r.priority = x.priority ∧ r.weight_min ≤ x.weight_min)
      then r :: x :: xs else x :: insertBySpecOrder r xs

/-- Modelled after the spec words only: the rule ordering the spec
prescribes, ascending `priority` tie-broken by ascending `weight_min`. -/
def orderBySpecOrder : List PricingRule → List PricingRule
  | [] => []
  | x :: xs => insertBySpecOrder x (orderBySpecOrder xs)

/-- The shared selection loop of both call sites: scan the priority-ordered
rules and return the first whose conditions match. -/
def selectRule (rules : List PricingRule) (weight distance : ℚ)
    (is_oversize : Bool) : Option PricingRule :=
  (orderByPriority rules).find? (fun r => r.matches weight distance is_oversize)

/-- Modelled after the spec words only: selection under the spec's
priority-then-weight_min ordering. -/
def selectRuleSpecOrder (rules : List PricingRule) (weight distance : ℚ)
    (is_oversize : Bool) : Option PricingRule :=
  (orderBySpecOrder rules).find? (fun r => r.matches weight distance is_oversize)

/-- The rule catalog: the `DeliveryType` and `PricingRule` tables, each
list in database order. -/
structure Catalog where
  deliveryTypes : List DeliveryType
  rules : List PricingRule

/-- Embedding of `DeliveryType.objects.filter(code=..., is_active=True).first()`
(codes are unique, so at most one row qualifies). -/
def findDeliveryType (c : Catalog) (speed : String) : Option DeliveryType :=
  c.deliveryTypes.find? (fun dt => decide (dt.code = speed) && dt.is_active)

/-- Embedding of `PricingRule.objects.filter(delivery_type=dt, is_active=True)`:
the active rules of one delivery type, in database order. -/
def activeRulesFor (c : Catalog) (dt : DeliveryType) : List PricingRule :=
  c.rules.filter (fun r => decide (r.delivery_type.code = dt.code) && r.is_active)

/-- Outcomes of the quote preview endpoint `calculate_quote_api`
(src/orders/views.py): the 400 payload for invalid input, the 400 payload
for an unknown/inactive delivery type, the 400 payload when no rule
matches, and the success payload. -/
inductive QuoteResult
  | invalidInput
  | unknownDeliveryType
  | noMatch
  | priced (estimate : ℚ) (rule_name : String) (requires_admin_approval : Bool)
deriving DecidableEq

/-- Embedding of `calculate_quote_api` (src/orders/views.py): numeric parameters already
parsed; `parcel_type` is accepted by the view but unused by pricing. -/
def calculate_quote_api (c : Catalog) (distance weight : ℚ)
    (delivery_speed : String) (is_oversize : Bool) : QuoteResult :=
  if distance ≤ 0 ∨ weight ≤ 0 then QuoteResult.invalidInput
  else
    match findDeliveryType c delivery_speed with
    | none => QuoteResult.unknownDeliveryType
    | some dt =>
      match selectRule (activeRulesFor c dt) weight distance is_oversize with
      | none => QuoteResult.noMatch
      | some r =>
          QuoteResult.priced (r.calculate_price distance weight is_oversize)
            r.name dt.requires_admin_approval

/-- Legacy `PricingTier` rows (src/orders/models.py). -/
structure PricingTier where
  name : String
  weight_min : ℚ
  weight_max : Option ℚ
  distance_threshold : Option ℚ
  price_per_km_short : ℚ
  price_per_km_long : Option ℚ
  is_active : Bool
  order : Int
deriving DecidableEq

/-- Embedding of `PricingTier.get_rate_for_distance`, transcribed from
src/orders/models.py. -/
def PricingTier.get_rate_for_distance (t : PricingTier) (distance_km : ℚ) : ℚ :=
  if truthy t.distance_threshold && decide (t.distance_threshold.getD 0 < distance_km)
    then (if truthy t.price_per_km_long then t.price_per_km_long.getD 0
          else t.price_per_km_short)
    else t.price_per_km_short

/-- The tier query of `calculate_auto_price`: first active tier whose
weight range covers the weight.  `.first()` uses the model default
ordering, so the tier list is taken to be in that (order, weight_min)
database order. -/
def selectTier (tiers : List PricingTier) (weight : ℚ) : Option PricingTier :=
  tiers.find? (fun t => t.is_active && decide (t.weight_min ≤ weight)
    && (t.weight_max.isNone || decide (weight ≤ t.weight_max.getD 0)))

/-- Legacy `PricingConfiguration` row (src/orders/models.py), the fields
read by `_calculate_legacy_price`. -/
structure PricingConfiguration where
  base_price : ℚ
  price_per_km : ℚ
  price_per_kg : ℚ
deriving DecidableEq

/-- The `type_multipliers` table of `Order._calculate_legacy_price`. -/
def type_multiplier (parcel_type : String) : ℚ :=
  if parcel_type = "FRAGILE" then 3/2
  else if parcel_type = "ELECTRONICS" then 13/10
  else if parcel_type = "GENERAL" then 1
  else if parcel_type = "DOCUMENTS" then 4/5
  else if parcel_type = "FOOD" then 6/5
  else if parcel_type = "GIFT" then 11/10
  else if parcel_type = "FOAM" then 1
  else if parcel_type = "CLOTHING" then 9/10
  else if parcel_type = "BOOKS" then 9/10
  else if parcel_type = "OTHER" then 1
  else 1

/-- The order fields `calculate_auto_price` reads. -/
structure OrderInputs where
  distance_km : Option ℚ
  parcel_weight : Option ℚ
  is_oversize : Bool
  delivery_speed : Option String
  parcel_type : String
deriving DecidableEq

/-- Embedding of `self.delivery_speed or 'SAME_DAY'`. -/
def effectiveSpeed (s : Option String) : String :=
  match s with
  | none => "SAME_DAY"
  | some str => if str = "" then "SAME_DAY" else str

/-- Embedding of `Order._calculate_legacy_price`, transcribed from src/orders/models.py. -/
def calculate_legacy_price (config : Option PricingConfiguration)
    (ord : OrderInputs) : Option ℚ :=
  match config with
  | none => none
  | some cfg =>
      some (pyRound2 ((cfg.base_price
        + ord.distance_km.getD 0 * cfg.price_per_km
        + ord.parcel_weight.getD 0 * cfg.price_per_kg)
        * type_multiplier ord.parcel_type))

/-- Embedding of `Order.calculate_auto_price`, transcribed from src/orders/models.py:
try the rule engine first, then the legacy tier table, then the legacy
flat configuration. -/
def calculate_auto_price (c : Catalog) (tiers : List PricingTier)
    (config : Option PricingConfiguration) (ord : OrderInputs) : Option ℚ :=
  if !truthy ord.distance_km || !truthy ord.parcel_weight then none
  else
    let distance := ord.distance_km.getD 0
    let weight := ord.parcel_weight.getD 0
    let rulePrice : Option ℚ :=
      match findDeliveryType c (effectiveSpeed ord.delivery_speed) with
      | some dt =>
          (selectRule (activeRulesFor c dt) weight distance ord.is_oversize).map
            (fun r => r.calculate_price distance weight ord.is_oversize)
      | none => none
    match rulePrice with
    | some p => some p
    | none =>
      match selectTier tiers weight with
      | some t => some (pyRound2 (distance * t.get_rate_for_distance distance))
      | none => calculate_legacy_price config ord

/-- Sortedness by ascending `priority`. -/
def SortedP (l : List PricingRule) : Prop :=
  l.Pairwise (fun a b => a.priority ≤ b.priority)

lemma mem_insertByPriority {a r : PricingRule} {l : List PricingRule} :
    a ∈ insertByPriority r l ↔ a = r ∨ a ∈ l := by
  induction l with
  | nil => simp [insertByPriority]
  | cons x xs ih =>
    simp only [insertByPriority]
    split
    · simp
    · simp [ih]
      tauto

lemma mem_orderByPriority {a : PricingRule} {l : List PricingRule} :
    a ∈ orderByPriority l ↔ a ∈ l := by
  induction l with
  | nil => simp [orderByPriority]
  | cons x xs ih =>
    simp [orderByPriority, mem_insertByPriority, ih]

lemma sortedP_insertByPriority {r : PricingRule} {l : List PricingRule}
    (h : SortedP l) : SortedP (insertByPriority r l) := by
  induction l with
  | nil => simp [insertByPriority, SortedP]
  | cons x xs ih =>
    simp only [insertByPriority]
    rcases h with _ | ⟨hx, hxs⟩
    split
    · refine List.Pairwise.cons ?_ (List.Pairwise.cons hx hxs)
      intro b hb
      rcases List.mem_cons.mp hb with rfl | hb
      · omega
      · have := hx b hb
        omega
    · refine List.Pairwise.cons ?_ (ih hxs)
      intro b hb
      rcases mem_insertByPriority.mp hb with rfl | hb
      · omega
      · exact hx b hb

lemma sortedP_orderByPriority (l : List PricingRule) :
    SortedP (orderByPriority l) := by
  induction l with
  | nil => exact List.Pairwise.nil
  | cons x xs ih => exact sortedP_insertByPriority ih

/-- In a priority-sorted list, the first rule `find?` accepts has minimal
priority among all accepted rules. -/
lemma find?_min_priority {p : PricingRule → Bool} :
    ∀ {l : List PricingRule} {r : PricingRule}, SortedP l →
      l.find? p = some r → ∀ r' ∈ l, p r' = true → r.priority ≤ r'.priority := by
  intro l
  induction l with
  | nil => intro r _ h; simp at h
  | cons x xs ih =>
    intro r hs hf r' hr' hp
    rcases hs with _ | ⟨hx, hxs⟩
    by_cases hpx : p x = true
    · rw [List.find?_cons_of_pos _ hpx] at hf
      cases hf
      rcases List.mem_cons.mp hr' with rfl | hr'
      · exact le_refl _
      · exact hx r' hr'
    · rw [List.find?_cons_of_neg _ hpx] at hf
      rcases List.mem_cons.mp hr' with rfl | hr'
      · exact absurd hp hpx
      · exact ih hxs hf r' hr' hp

/-! Concrete fixtures used by the witnesses and counterexamples.  The two
delivery types and the express/same-day rules follow the seed data of
`src/orders/management/commands/setup_helpii_pricing.py`; the remaining
rules are admissible catalog rows exercising particular fields. -/

/-- The seeded EXPRESS_2HR delivery type: $30 base. -/
def expressType : DeliveryType :=
  { code := "EXPRESS_2HR", base_price := 30, is_active := true,
    requires_admin_approval := false }

/-- The seeded SAME_DAY delivery type: $10 base. -/
def sameDayType : DeliveryType :=
  { code := "SAME_DAY", base_price := 10, is_active := true,
    requires_admin_approval := false }

/-- A SAME_DAY-coded delivery type with base price 0. -/
def zeroBaseType : DeliveryType :=
  { code := "SAME_DAY", base_price := 0, is_active := true,
    requires_admin_approval := false }

/-- The seeded "Express Overweight" rule: >20kg, $30 + $5/km + $50
oversize surcharge. -/
def expressOverweightRule : PricingRule :=
  { delivery_type := expressType, name := "Express Overweight",
    weight_min := 2001/100, weight_max := none, is_oversize_rule := false,
    distance_threshold := none, is_short_trip := none,
    calculation_type := CalculationType.PER_KM, rate_per_km := some 5,
    max_price := none, flat_total := none, oversize_surcharge := 50,
    is_active := true, priority := 5 }

/-- The seeded "Same Day Oversize" rule: dedicated oversize FLAT $70. -/
def sameDayOversizeRule : PricingRule :=
  { delivery_type := sameDayType, name := "Same Day Oversize",
    weight_min := 0, weight_max := some 20, is_oversize_rule := true,
    distance_threshold := none, is_short_trip := none,
    calculation_type := CalculationType.FLAT, rate_per_km := none,
    max_price := none, flat_total := some 70, oversize_surcharge := 0,
    is_active := true, priority := 1 }

/-- Rule A: FLAT $100, `priority` 10, `weight_min` 5. -/
def c1RuleA : PricingRule :=
  { delivery_type := sameDayType, name := "A",
    weight_min := 5, weight_max := none, is_oversize_rule := false,
    distance_threshold := none, is_short_trip := none,
    calculation_type := CalculationType.FLAT, rate_per_km := none,
    max_price := none, flat_total := some 100, oversize_surcharge := 0,
    is_active := true, priority := 10 }

/-- Rule B: FLAT $200, the same `priority` 10, smaller `weight_min` 1. -/
def c1RuleB : PricingRule :=
  { delivery_type := sameDayType, name := "B",
    weight_min := 1, weight_max := none, is_oversize_rule := false,
    distance_threshold := none, is_short_trip := none,
    calculation_type := CalculationType.FLAT, rate_per_km := none,
    max_price := none, flat_total := some 200, oversize_surcharge := 0,
    is_active := true, priority := 10 }

/-- Catalog holding the two equal-priority rules in database order A, B. -/
def c1Catalog : Catalog :=
  { deliveryTypes := [sameDayType], rules := [c1RuleA, c1RuleB] }

/-- A FLAT rule whose `flat_total` is present and equal to 0. -/
def flatZeroRule : PricingRule :=
  { delivery_type := sameDayType, name := "FlatZero",
    weight_min := 0, weight_max := none, is_oversize_rule := false,
    distance_threshold := none, is_short_trip := none,
    calculation_type := CalculationType.FLAT, rate_per_km := none,
    max_price := none, flat_total := some 0, oversize_surcharge := 0,
    is_active := true, priority := 10 }

/-- A PER_KM rule on the base-0 type with rate 0.25 $/km: at distance
0.5 km the unrounded total is 0.125, exactly representable in binary
floating point. -/
def c5Rule : PricingRule :=
  { delivery_type := zeroBaseType, name := "QuarterRate",
    weight_min := 0, weight_max := none, is_oversize_rule := false,
    distance_threshold := none, is_short_trip := none,
    calculation_type := CalculationType.PER_KM, rate_per_km := some (1/4),
    max_price := none, flat_total := none, oversize_surcharge := 0,
    is_active := true, priority := 0 }

/-- A rule whose `weight_max` is present and equal to 0. -/
def zeroMaxRule : PricingRule :=
  { delivery_type := sameDayType, name := "ZeroMax",
    weight_min := 0, weight_max := some 0, is_oversize_rule := false,
    distance_threshold := none, is_short_trip := none,
    calculation_type := CalculationType.FLAT, rate_per_km := none,
    max_price := none, flat_total := some 70, oversize_surcharge := 0,
    is_active := true, priority := 1 }

/-- A CAPPED rule: $10 base + $1/km capped at $12, with a $50 oversize
surcharge. -/
def c10Rule : PricingRule :=
  { delivery_type := sameDayType, name := "Capped",
    weight_min := 0, weight_max := none, is_oversize_rule := false,
    distance_threshold := none, is_short_trip := none,
    calculation_type := CalculationType.CAPPED, rate_per_km := some 1,
    max_price := some 12, flat_total := none, oversize_surcharge := 50,
    is_active := true, priority := 0 }

/-- A SAME_DAY rule covering only weights up to 10 kg. -/
def smallOnlyRule : PricingRule :=
  { delivery_type := sameDayType, name := "SmallOnly",
    weight_min := 0, weight_max := some 10, is_oversize_rule := false,
    distance_threshold := none, is_short_trip := none,
    calculation_type := CalculationType.FLAT, rate_per_km := none,
    max_price := none, flat_total := some 60, oversize_surcharge := 0,
    is_active := true, priority := 10 }

/-- Catalog with an active SAME_DAY type whose only rule covers ≤10 kg. -/
def c8Catalog : Catalog :=
  { deliveryTypes := [sameDayType], rules := [smallOnlyRule] }

/-- The seeded "Same Day Small Short Trip" rule: ≤10 kg, ≤10 km, $3/km. -/
def shortTripRule : PricingRule :=
  { delivery_type := sameDayType, name := "Same Day Small Short Trip",
    weight_min := 0, weight_max := some 10, is_oversize_rule := false,
    distance_threshold := some 10, is_short_trip := some true,
    calculation_type := CalculationType.PER_KM, rate_per_km := some 3,
    max_price := none, flat_total := none, oversize_surcharge := 0,
    is_active := true, priority := 10 }

/-- The seeded "Same Day Small Long Trip" rule: ≤10 kg, >10 km, $2/km. -/
def longTripRule : PricingRule :=
  { delivery_type := sameDayType, name := "Same Day Small Long Trip",
    weight_min := 0, weight_max := some 10, is_oversize_rule := false,
    distance_threshold := some 10, is_short_trip := some false,
    calculation_type := CalculationType.PER_KM, rate_per_km := some 2,
    max_price := none, flat_total := none, oversize_surcharge := 0,
    is_active := true, priority := 11 }

/-- An active legacy tier: any weight, $1.50/km. -/
def demoTier : PricingTier :=
  { name := "Base", weight_min := 0, weight_max := none,
    distance_threshold := none, price_per_km_short := 3/2,
    price_per_km_long := none, is_active := true, order := 0 }

/-- An order with an unknown delivery-speed code. -/
def fooOrder : OrderInputs :=
  { distance_km := some 10, parcel_weight := some 5, is_oversize := false,
    delivery_speed := some "FOO", parcel_type := "GENERAL" }

/-- A 50 kg SAME_DAY order that no rule of `c8Catalog` covers. -/
def heavyOrder : OrderInputs :=
  { distance_km := some 10, parcel_weight := some 50, is_oversize := false,
    delivery_speed := some "SAME_DAY", parcel_type := "GENERAL" }

/-- C1 (amended): quote resolution scans the delivery type's active rules
in ascending priority order (rules of equal priority are left in catalog
order — Django's `.order_by('priority')` replaces the model meta ordering,
so no weight_min tie-break is applied) and returns the first rule whose
conditions match, stopping there: the returned rule matches, and no rule
of strictly smaller priority matches, so no later rule can be selected
when an earlier one matches. -/
theorem c1_priority_first_match (rules : List PricingRule) (w d : ℚ)
    (o : Bool) (r : PricingRule) (h : selectRule rules w d o = some r) :
    r.matches w d o = true
      ∧ ∀ r' ∈ rules, r'.priority < r.priority → r'.matches w d o = false := by
  simp only [selectRule] at h
  constructor
  · have hp := List.find?_some h
    exact hp
  · intro r' hr' hlt
    cases hb : r'.matches w d o with
    | false => rfl
    | true =>
      have hmem : r' ∈ orderByPriority rules := mem_orderByPriority.mpr hr'
      have := find?_min_priority (sortedP_orderByPriority rules) h r' hmem hb
      omega

/-- Witness for C1: the amended theorem applied to the concrete
equal-priority catalog `[c1RuleA, c1RuleB]` at weight 6, distance 3. -/
theorem c1_priority_first_match_witness :
    c1RuleA.matches 6 3 false = true
      ∧ ∀ r' ∈ [c1RuleA, c1RuleB], r'.priority < c1RuleA.priority →
          r'.matches 6 3 false = false :=
  c1_priority_first_match [c1RuleA, c1RuleB] 6 3 false c1RuleA (by
    norm_num [selectRule, orderByPriority, insertByPriority, c1RuleA, c1RuleB,
      sameDayType, PricingRule.matches, truthy, List.find?])

/-- C1 (counterexample): two active rules share priority 10; rule B has the
smaller weight_min (1 < 5) and both match, yet resolution returns rule A,
the one first in catalog order — while the spec's ascending-priority,
ascending-weight_min ordering would have selected rule B.  The claimed
weight_min tie-break therefore does not hold of the code. -/
theorem c1_counterexample :
    selectRule [c1RuleA, c1RuleB] 6 3 false = some c1RuleA
    ∧ selectRuleSpecOrder [c1RuleA, c1RuleB] 6 3 false = some c1RuleB
    ∧ c1RuleA.name ≠ c1RuleB.name
    ∧ calculate_quote_api c1Catalog 3 6 "SAME_DAY" false
        = QuoteResult.priced 100 "A" false := by
  refine ⟨?_, ?_, by decide, ?_⟩
  · norm_num [selectRule, orderByPriority, insertByPriority, c1RuleA, c1RuleB,
      sameDayType, PricingRule.matches, truthy, List.find?]
  · norm_num [selectRuleSpecOrder, orderBySpecOrder, insertBySpecOrder,
      c1RuleA, c1RuleB, sameDayType, PricingRule.matches, truthy, List.find?]
  · norm_num [calculate_quote_api, findDeliveryType, activeRulesFor, c1Catalog,
      selectRule, orderByPriority, insertByPriority, c1RuleA, c1RuleB,
      sameDayType, PricingRule.matches, PricingRule.calculate_price, truthy,
      pyRound2, roundHalfEven, List.find?, List.filter]

/-- C2: the oversize gate of `matches`.  A rule with `is_oversize_rule`
matches only oversize inputs; a rule without it rejects oversize inputs
when its delivery type is not the EXPRESS_2HR surcharge-style type (fail
closed); and on the EXPRESS_2HR type such a rule still matches, subject
only to the weight and distance gates. -/
theorem c2_oversize_gate_policy (r : PricingRule) (w d : ℚ) :
    (r.is_oversize_rule = true → r.matches w d false = false)
    ∧ (r.is_oversize_rule = false → r.delivery_type.code ≠ "EXPRESS_2HR" →
        r.matches w d true = false)
    ∧ (r.is_oversize_rule = false → r.delivery_type.code = "EXPRESS_2HR" →
        r.matches w d true = (weight_gate r w && distance_gate r d)) := by
  refine ⟨?_, ?_, ?_⟩
  · intro h
    simp [PricingRule.matches, h]
  · intro h hc
    simp [PricingRule.matches, h, hc]
  · intro h hc
    exact matches_eq_tail r w d true (by simp [h]) (by simp [hc])

/-- Witness for C2: the seeded dedicated-oversize SAME_DAY rule rejects a
non-oversize parcel, and the seeded EXPRESS_2HR overweight rule still
matches an oversize parcel through its weight and distance gates. -/
theorem c2_oversize_gate_policy_witness :
    sameDayOversizeRule.matches 5 3 false = false
    ∧ expressOverweightRule.matches 25 10 true
        = (weight_gate expressOverweightRule 25
            && distance_gate expressOverweightRule 10) :=
  ⟨(c2_oversize_gate_policy sameDayOversizeRule 5 3).1 rfl,
   (c2_oversize_gate_policy expressOverweightRule 25 10).2.2 rfl rfl⟩

/-- C3 (amended): the pre-surcharge price by calculation type.  FLAT yields
`flat_total` when it is present and nonzero, and falls back to the delivery
type's `base_price` when `flat_total` is absent OR zero (Python truthiness);
PER_KM yields `base_price + rate_per_km × distanceKm`; CAPPED yields
`min(base_price + rate_per_km × distanceKm, max_price)` when `max_price` is
present and nonzero, and the cap is a no-op (equals PER_KM) when
`max_price` is absent or zero. -/
theorem c3_calculation_formulas (r : PricingRule) (d v rt M : ℚ) :
    (r.calculation_type = CalculationType.FLAT → r.flat_total = some v →
      v ≠ 0 → r.pre_surcharge_total d = v)
    ∧ (r.calculation_type = CalculationType.FLAT →
        (r.flat_total = none ∨ r.flat_total = some 0) →
        r.pre_surcharge_total d = r.delivery_type.base_price)
    ∧ (r.calculation_type = CalculationType.PER_KM → r.rate_per_km = some rt →
        r.pre_surcharge_total d = r.delivery_type.base_price + rt * d)
    ∧ (r.calculation_type = CalculationType.CAPPED → r.rate_per_km = some rt →
        r.max_price = some M → M ≠ 0 →
        r.pre_surcharge_total d
          = min (r.delivery_type.base_price + rt * d) M)
    ∧ (r.calculation_type = CalculationType.CAPPED → r.rate_per_km = some rt →
        (r.max_price = none ∨ r.max_price = some 0) →
        r.pre_surcharge_total d = r.delivery_type.base_price + rt * d) := by
  refine ⟨?_, ?_, ?_, ?_, ?_⟩
  · intro hct hft hv
    simp [PricingRule.pre_surcharge_total, hct, hft, truthy, hv]
  · intro hct hft
    rcases hft with hft | hft <;>
      simp [PricingRule.pre_surcharge_total, hct, hft, truthy]
  · intro hct hrt
    by_cases h0 : rt = 0 <;>
      simp [PricingRule.pre_surcharge_total, hct, hrt, truthy, h0]
  · intro hct hrt hM hM0
    by_cases h0 : rt = 0 <;>
      simp [PricingRule.pre_surcharge_total, hct, hrt, hM, truthy, h0, hM0]
  · intro hct hrt hM
    rcases hM with hM | hM <;> by_cases h0 : rt = 0 <;>
      simp [PricingRule.pre_surcharge_total, hct, hrt, hM, truthy, h0]

/-- Witness for C3: the seeded Same Day Oversize FLAT rule yields its
flat_total of 70, and the seeded Express Overweight PER_KM rule yields
30 + 5 × 10 = 80 at 10 km. -/
theorem c3_calculation_formulas_witness :
    sameDayOversizeRule.pre_surcharge_total 3 = 70
    ∧ expressOverweightRule.pre_surcharge_total 10 = 80 := by
  constructor
  · exact (c3_calculation_formulas sameDayOversizeRule 3 70 0 0).1 rfl rfl
      (by norm_num)
  · have h := (c3_calculation_formulas expressOverweightRule 10 0 5 0).2.2.1
      rfl rfl
    rw [h]
    norm_num [expressOverweightRule, expressType]

/-- C3 (counterexample): a FLAT rule whose `flat_total` is present and
equal to 0 does not price at its flat_total — Python truthiness takes the
base-price fallback, so the price is the $10 base, not $0.  The fallback
therefore fires on a present-but-zero `flat_total`, not only on an absent
one. -/
theorem c3_counterexample :
    flatZeroRule.calculation_type = CalculationType.FLAT
    ∧ flatZeroRule.flat_total = some 0
    ∧ flatZeroRule.pre_surcharge_total 3 = 10
    ∧ flatZeroRule.calculate_price 3 5 false = 10
    ∧ (10 : ℚ) ≠ 0 := by
  refine ⟨rfl, rfl, ?_, ?_, by norm_num⟩
  · norm_num [PricingRule.pre_surcharge_total, flatZeroRule, sameDayType, truthy]
  · norm_num [PricingRule.calculate_price, flatZeroRule, sameDayType, truthy,
      pyRound2, roundHalfEven]

/-- C4 (amended): whenever the parcel is oversize and the matched rule's
`oversize_surcharge` is positive, the surcharge is added to the computed
price regardless of calculation type; for the seeded express-style
scenario (base $30, $5/km, 10 km, 25 kg, $50 surcharge) the price is
$130.00 (the spec's own sum: 30 + 5×10 + 50). -/
theorem c4_surcharge_applied :
    (∀ (r : PricingRule) (d w : ℚ), 0 < r.oversize_surcharge →
      r.calculate_price d w true
        = pyRound2 (r.pre_surcharge_total d + r.oversize_surcharge))
    ∧ expressOverweightRule.calculate_price 10 25 true = 130 := by
  constructor
  · intro r d w h
    rw [calculate_price_eq_round_raw]
    simp [PricingRule.raw_total, ne_of_gt h]
  · norm_num [PricingRule.calculate_price, expressOverweightRule, expressType,
      truthy, pyRound2, roundHalfEven]

/-- Witness for C4: the surcharge clause applied to the seeded Express
Overweight rule at 10 km. -/
theorem c4_surcharge_applied_witness :
    expressOverweightRule.calculate_price 10 25 true
      = pyRound2 (expressOverweightRule.pre_surcharge_total 10
          + expressOverweightRule.oversize_surcharge) :=
  c4_surcharge_applied.1 expressOverweightRule 10 25 (by norm_num [expressOverweightRule])

/-- C4 (counterexample): at the claim's own scenario inputs (express-style
type, base $30, $5/km, 10 km, 25 kg oversize, $50 surcharge) the code
returns $130.00, not the $150.00 the claim states: 30 + 5×10 + 50 = 130. -/
theorem c4_counterexample :
    expressOverweightRule.calculate_price 10 25 true = 130
    ∧ (130 : ℚ) ≠ 150 := by
  constructor
  · norm_num [PricingRule.calculate_price, expressOverweightRule, expressType,
      truthy, pyRound2, roundHalfEven]
  · norm_num

/-- C5 (amended): the returned price is produced by applying two-decimal
rounding exactly once, at the final step, to the unrounded total (the
intermediate rate×distance term is never pre-rounded), and the rounding
is round-half-even (CPython `round`), so every returned price is an
integer number of cents. -/
theorem c5_round_once_half_even (r : PricingRule) (d w : ℚ) (o : Bool) :
    r.calculate_price d w o = pyRound2 (r.raw_total d o)
    ∧ ∃ n : ℤ, r.calculate_price d w o = (n : ℚ) / 100 := by
  refine ⟨calculate_price_eq_round_raw r d w o,
    ⟨roundHalfEven (100 * r.raw_total d o), ?_⟩⟩
  rw [calculate_price_eq_round_raw]
  rfl

/-- C5 (counterexample): with base $0, rate $0.25/km and distance 0.5 km
(all exactly representable in binary floating point) the unrounded total
is 0.125; the code returns $0.12 (round-half-even), while the claimed
round-half-up semantics would give $0.13. -/
theorem c5_counterexample :
    c5Rule.raw_total (1/2) false = 1/8
    ∧ c5Rule.calculate_price (1/2) 1 false = 12/100
    ∧ roundHalfUp2Spec (c5Rule.raw_total (1/2) false) = 13/100
    ∧ (12/100 : ℚ) ≠ 13/100 := by
  refine ⟨?_, ?_, ?_, by norm_num⟩
  · norm_num [PricingRule.raw_total, PricingRule.pre_surcharge_total, c5Rule,
      zeroBaseType, truthy]
  · norm_num [PricingRule.calculate_price, c5Rule, zeroBaseType, truthy,
      pyRound2, roundHalfEven]
  · norm_num [roundHalfUp2Spec, PricingRule.raw_total,
      PricingRule.pre_surcharge_total, c5Rule, zeroBaseType, truthy]

/-- C6 (amended): the quote endpoint fails with InvalidInput exactly when
`weightKg ≤ 0` OR `distanceKm ≤ 0` — it also rejects non-positive
distance, so a call with distance 0 and positive weight is rejected, not
evaluated against the rules. -/
theorem c6_invalid_input_iff (c : Catalog) (d w : ℚ) (speed : String)
    (o : Bool) :
    calculate_quote_api c d w speed o = QuoteResult.invalidInput
      ↔ (d ≤ 0 ∨ w ≤ 0) := by
  constructor
  · intro h
    by_contra hn
    rw [calculate_quote_api, if_neg hn] at h
    rcases hdt : findDeliveryType c speed with _ | dt
    · simp only [hdt] at h
      exact QuoteResult.noConfusion h
    · simp only [hdt] at h
      rcases hs : selectRule (activeRulesFor c dt) w d o with _ | r <;>
        simp only [hs] at h <;> exact QuoteResult.noConfusion h
  · intro h
    rw [calculate_quote_api, if_pos h]

/-- Witness for C6: the amended equivalence instantiated at distance 0,
weight 5 on the concrete catalog. -/
theorem c6_invalid_input_iff_witness :
    calculate_quote_api c1Catalog 0 5 "SAME_DAY" false
        = QuoteResult.invalidInput
      ↔ ((0 : ℚ) ≤ 0 ∨ (5 : ℚ) ≤ 0) :=
  c6_invalid_input_iff c1Catalog 0 5 "SAME_DAY" false

/-- C6 (counterexample): at distance 0 with weight 5 > 0 the endpoint
answers InvalidInput, although the same catalog prices the same weight at
distance 1 — the rejection is on account of the distance, contradicting
the claim that distance 0 is accepted and evaluated. -/
theorem c6_counterexample :
    (0 : ℚ) < 5
    ∧ calculate_quote_api c1Catalog 0 5 "SAME_DAY" false
        = QuoteResult.invalidInput
    ∧ calculate_quote_api c1Catalog 1 5 "SAME_DAY" false
        = QuoteResult.priced 100 "A" false := by
  refine ⟨by norm_num, ?_, ?_⟩
  · norm_num [calculate_quote_api]
  · norm_num [calculate_quote_api, findDeliveryType, activeRulesFor, c1Catalog,
      selectRule, orderByPriority, insertByPriority, c1RuleA, c1RuleB,
      sameDayType, PricingRule.matches, PricingRule.calculate_price, truthy,
      pyRound2, roundHalfEven, List.find?, List.filter]

/-- C7 (amended): when the delivery-speed code resolves to no active
DeliveryType, the quote endpoint fails with UnknownDeliveryType and
computes no price; the order-side `calculate_auto_price`, by contrast,
silently falls back to the legacy tier / flat-configuration pricing and
may return a price from those sources. -/
theorem c7_unknown_delivery_type (c : Catalog) (d w : ℚ) (speed : String)
    (o : Bool) (h1 : 0 < d) (h2 : 0 < w)
    (h3 : findDeliveryType c speed = none) :
    calculate_quote_api c d w speed o = QuoteResult.unknownDeliveryType := by
  have hcond : ¬(d ≤ 0 ∨ w ≤ 0) := by
    push_neg
    exact ⟨h1, h2⟩
  simp only [calculate_quote_api, if_neg hcond, h3]

/-- Witness for C7: the endpoint on the unknown code FOO. -/
theorem c7_unknown_delivery_type_witness :
    calculate_quote_api c1Catalog 10 5 "FOO" false
      = QuoteResult.unknownDeliveryType :=
  c7_unknown_delivery_type c1Catalog 10 5 "FOO" false (by norm_num)
    (by norm_num) (by
      have h : ("SAME_DAY" : String) ≠ "FOO" := by decide
      norm_num [findDeliveryType, c1Catalog, sameDayType, h, List.find?])

/-- C7 (counterexample): for the order-side path, the unknown code FOO
resolves to no active DeliveryType, yet `calculate_auto_price` returns a
price — $15.00 computed from the legacy PricingTier table (10 km at
$1.50/km) — so a price IS computed from another pricing source instead of
failing with UnknownDeliveryType. -/
theorem c7_counterexample :
    findDeliveryType c1Catalog (effectiveSpeed fooOrder.delivery_speed) = none
    ∧ calculate_auto_price c1Catalog [demoTier] none fooOrder = some 15 := by
  have h1 : ("FOO" : String) ≠ "" := by decide
  have h2 : ("SAME_DAY" : String) ≠ "FOO" := by decide
  constructor
  · norm_num [findDeliveryType, c1Catalog, sameDayType, effectiveSpeed,
      fooOrder, h1, h2, List.find?]
  · norm_num [calculate_auto_price, findDeliveryType, c1Catalog, sameDayType,
      fooOrder, effectiveSpeed, truthy, selectTier, demoTier, h1, h2,
      PricingTier.get_rate_for_distance, pyRound2, roundHalfEven, List.find?]

/-- C8 (amended): for valid inputs and an active delivery type, when no
active rule of that type matches, the quote endpoint reports the NoMatch
outcome with no price computed; the order-side `calculate_auto_price`, by
contrast, falls back to the legacy tier / flat-configuration pricing and
may return a price. -/
theorem c8_no_match (c : Catalog) (d w : ℚ) (speed : String) (o : Bool)
    (dt : DeliveryType) (h1 : 0 < d) (h2 : 0 < w)
    (h3 : findDeliveryType c speed = some dt)
    (h4 : selectRule (activeRulesFor c dt) w d o = none) :
    calculate_quote_api c d w speed o = QuoteResult.noMatch := by
  have hcond : ¬(d ≤ 0 ∨ w ≤ 0) := by
    push_neg
    exact ⟨h1, h2⟩
  simp only [calculate_quote_api, if_neg hcond, h3, h4]

/-- Witness for C8: a 50 kg parcel on the catalog whose only SAME_DAY rule
covers ≤10 kg. -/
theorem c8_no_match_witness :
    calculate_quote_api c8Catalog 10 50 "SAME_DAY" false
      = QuoteResult.noMatch :=
  c8_no_match c8Catalog 10 50 "SAME_DAY" false sameDayType (by norm_num)
    (by norm_num)
    (by norm_num [findDeliveryType, c8Catalog, sameDayType, List.find?])
    (by norm_num [selectRule, activeRulesFor, c8Catalog, smallOnlyRule,
      sameDayType, orderByPriority, insertByPriority, PricingRule.matches,
      truthy, List.find?, List.filter])

/-- C8 (counterexample): the same no-matching-rule inputs on the
order-side path do not end in a reported NoMatch: `calculate_auto_price`
falls through to the legacy PricingTier table and returns $15.00
(10 km × $1.50/km), a price from a fallback pricing system. -/
theorem c8_counterexample :
    findDeliveryType c8Catalog "SAME_DAY" = some sameDayType
    ∧ selectRule (activeRulesFor c8Catalog sameDayType) 50 10 false = none
    ∧ calculate_auto_price c8Catalog [demoTier] none heavyOrder = some 15 := by
  refine ⟨?_, ?_, ?_⟩
  · norm_num [findDeliveryType, c8Catalog, sameDayType, List.find?]
  · norm_num [selectRule, activeRulesFor, c8Catalog, smallOnlyRule,
      sameDayType, orderByPriority, insertByPriority, PricingRule.matches,
      truthy, List.find?, List.filter]
  · norm_num [calculate_auto_price, findDeliveryType, activeRulesFor,
      c8Catalog, sameDayType, heavyOrder, effectiveSpeed, truthy, selectRule,
      orderByPriority, insertByPriority, smallOnlyRule, PricingRule.matches,
      selectTier, demoTier, PricingTier.get_rate_for_distance, pyRound2,
      roundHalfEven, List.find?, List.filter]

/-- C9 (amended): with `weight_max` present AND nonzero, a weight exactly
equal to `weight_max` satisfies the weight gate (inclusive upper bound)
and any weight strictly above it fails the gate; with a shared
`distance_threshold` present AND nonzero, a distance exactly equal to the
threshold satisfies the `is_short_trip=true` gate and fails the
`is_short_trip=false` gate (≤ versus >).  (The nonzero proviso is forced
by Python truthiness: a zero `weight_max` or `distance_threshold` is
treated as absent.) -/
theorem c9_boundary_inclusive (r : PricingRule) (w m t : ℚ) :
    (r.weight_max = some m → m ≠ 0 → r.weight_min ≤ m →
      weight_gate r m = true)
    ∧ (r.weight_max = some m → m ≠ 0 → m < w → weight_gate r w = false)
    ∧ (r.distance_threshold = some t → t ≠ 0 → r.is_short_trip = some true →
        distance_gate r t = true)
    ∧ (r.distance_threshold = some t → t ≠ 0 → r.is_short_trip = some false →
        distance_gate r t = false) := by
  refine ⟨?_, ?_, ?_, ?_⟩
  · intro hm h0 hle
    simp [weight_gate, truthy, hm, h0, hle, lt_irrefl]
  · intro hm h0 hlt
    simp [weight_gate, truthy, hm, h0, hlt]
  · intro ht h0 hst
    simp [distance_gate, truthy, ht, h0, hst, le_refl]
  · intro ht h0 hst
    simp [distance_gate, truthy, ht, h0, hst, lt_irrefl]

/-- Witness for C9: the seeded 20 kg bound is inclusive at 20 and fails at
21; the seeded short/long-trip pair at threshold 10 splits distance 10 to
the short-trip rule. -/
theorem c9_boundary_inclusive_witness :
    weight_gate sameDayOversizeRule 20 = true
    ∧ weight_gate sameDayOversizeRule 21 = false
    ∧ distance_gate shortTripRule 10 = true
    ∧ distance_gate longTripRule 10 = false :=
  ⟨(c9_boundary_inclusive sameDayOversizeRule 0 20 0).1 rfl (by norm_num)
      (by norm_num [sameDayOversizeRule]),
   (c9_boundary_inclusive sameDayOversizeRule 21 20 0).2.1 rfl (by norm_num)
      (by norm_num),
   (c9_boundary_inclusive shortTripRule 0 0 10).2.2.1 rfl (by norm_num) rfl,
   (c9_boundary_inclusive longTripRule 0 0 10).2.2.2 rfl (by norm_num) rfl⟩

/-- C9 (counterexample): a rule with `weight_max` present and equal to 0:
the weight 1 is strictly above `weight_max`, yet the weight gate is
satisfied and the rule matches — Python's `if self.weight_max:` skips the
upper-bound check for a zero bound, so the claim fails as stated for every
rule with weight_max present. -/
theorem c9_counterexample :
    zeroMaxRule.weight_max = some 0
    ∧ (0 : ℚ) < 1
    ∧ weight_gate zeroMaxRule 1 = true
    ∧ zeroMaxRule.matches 1 5 false = true := by
  refine ⟨rfl, by norm_num, ?_, ?_⟩
  · norm_num [weight_gate, zeroMaxRule, truthy]
  · norm_num [PricingRule.matches, zeroMaxRule, sameDayType, truthy]

/-- C10: the oversize surcharge is applied after the cap: for a matched
CAPPED rule with positive `max_price` and positive surcharge on an
oversize parcel, the price is the capped amount plus the surcharge (then
rounded to cents), and so the final price can exceed `max_price`, as the
concrete capped rule shows: min(10 + 1×5, 12) + 50 = 62 > 12. -/
theorem c10_surcharge_after_cap :
    (∀ (r : PricingRule) (d w rt M : ℚ),
      r.calculation_type = CalculationType.CAPPED →
      r.rate_per_km = some rt → r.max_price = some M → 0 < M →
      0 < r.oversize_surcharge →
      r.calculate_price d w true
        = pyRound2 (min (r.delivery_type.base_price + rt * d) M
            + r.oversize_surcharge))
    ∧ c10Rule.calculate_price 5 1 true = 62
    ∧ c10Rule.max_price = some 12
    ∧ (12 : ℚ) < 62 := by
  refine ⟨?_, ?_, rfl, by norm_num⟩
  · intro r d w rt M hct hrt hM hM0 hs
    rw [calculate_price_eq_round_raw]
    by_cases h0 : rt = 0 <;>
      simp [PricingRule.raw_total, PricingRule.pre_surcharge_total, hct, hrt,
        hM, truthy, h0, ne_of_gt hM0, ne_of_gt hs]
  · norm_num [PricingRule.calculate_price, c10Rule, sameDayType, truthy,
      pyRound2, roundHalfEven, min_def]

/-- Witness for C10: the capped-plus-surcharge clause applied to the
concrete capped rule at distance 5. -/
theorem c10_surcharge_after_cap_witness :
    c10Rule.calculate_price 5 1 true
      = pyRound2 (min (c10Rule.delivery_type.base_price + 1 * 5) 12
          + c10Rule.oversize_surcharge) :=
  c10_surcharge_after_cap.1 c10Rule 5 1 1 12 rfl rfl rfl (by norm_num)
    (by norm_num [c10Rule])

end Courier
